import Mathlib

/-!
Verification of the task-management backend in `app.py` (Flask + SQLite).

The embedding models:
* JSON-ish Python values (`Js`) as handled by the request handlers,
  Python truthiness (`Js.truthy`), `dict.get` (`dictGet`) and the builtin
  `int(...)` coercion (`pyInt`);
* the `tasks` table as a list of rows plus the next SQLite rowid (`DB`);
* the four task handlers `get_tasks`, `add_task`, `update_task`,
  `delete_task` as pure functions from token/body/database to a response
  and a new database;
* the route registrations (`routes`) made by the `@app.route` decorators.

The JWT guard (`@jwt_required()`) and the login operation are framework /
missing code; they are modelled from the specification and marked as such.
-/

set_option autoImplicit false

namespace TodoBackend

mutual

/-- JSON values as decoded by `request.get_json()` (Python objects:
`str`, `int`, `bool`, `None`, `list`, `dict`). -/
inductive Js where
  | str (s : String)
  | int (n : Int)
  | bool (b : Bool)
  | null
  | arr (xs : JsList)
  | obj (kvs : JsDict)
deriving DecidableEq

/-- A Python list of JSON values. -/
inductive JsList where
  | nil
  | cons (hd : Js) (tl : JsList)
deriving DecidableEq

/-- A Python dict with string keys and JSON values. -/
inductive JsDict where
  | nil
  | cons (key : String) (val : Js) (tl : JsDict)
deriving DecidableEq

end

def JsList.isEmpty : JsList → Bool
  | .nil => true
  | .cons _ _ => false

def JsDict.isEmpty : JsDict → Bool
  | .nil => true
  | .cons _ _ _ => false

/-- Python truthiness, as tested by `if not data:` (line 109 / 158). -/
def Js.truthy : Js → Bool
  | .str s => s ≠ ""
  | .int n => n ≠ 0
  | .bool b => b
  | .null => false
  | .arr xs => ¬ xs.isEmpty
  | .obj kvs => ¬ kvs.isEmpty

/-- Python `dict.get(k)`: the value stored under the key, or `None` when
the key is absent (Python dict keys are unique; the first match rules). -/
def dictGet (kvs : JsDict) (k : String) : Option Js :=
  match kvs with
  | .nil => none
  | .cons key v tl => if key = k then some v else dictGet tl k

/-- Python `str.strip()` on the underlying character list: drop leading
and trailing whitespace. -/
def pyStripList (l : List Char) : List Char :=
  ((l.dropWhile Char.isWhitespace).reverse.dropWhile Char.isWhitespace).reverse

/-- Python `str.strip()`. -/
def pyStrip (s : String) : String :=
  String.mk (pyStripList s.data)

/-- Digit run of a Python integer literal string: decimal digits with
single underscores strictly between digits. `acc` is the value read so far. -/
def pyDigits : Nat → List Char → Option Nat
  | acc, [] => some acc
  | acc, c :: cs =>
    if c.isDigit then pyDigits (10 * acc + (c.toNat - 48)) cs
    else if c = '_' then
      match cs with
      | [] => none
      | d :: _ => if d.isDigit then pyDigits acc cs else none
    else none

/-- Python `int(s)` on a string: strip whitespace, optional sign, then a
non-empty digit run; `none` models the `ValueError` raised otherwise. -/
def pyIntOfString (s : String) : Option Int :=
  let t := pyStripList s.data
  let core : Int × List Char :=
    match t with
    | Char.ofNat 43 :: cs => (1, cs)
    | Char.ofNat 45 :: cs => (-1, cs)
    | cs => (1, cs)
  match core.2 with
  | [] => none
  | c :: _ =>
    if c.isDigit then (pyDigits 0 core.2).map (fun n => core.1 * (n : Int))
    else none

/-- Python `int(v)` on the value fetched from the body (line 117 / 165):
ints pass through, bools become 0/1, strings are parsed; any other value
raises (`none` models the uncaught `TypeError`/`ValueError`). -/
def pyInt : Js → Option Int
  | .int n => some n
  | .bool b => some (if b then 1 else 0)
  | .str s => pyIntOfString s
  | _ => none

/-- A row of the `tasks` table.  `title` is a Python `str` by validation;
`description`, `category` and `priority` are stored exactly as bound
(SQLite is dynamically typed), `status` is the coerced integer. -/
structure TaskRow where
  id : Nat
  user_id : String
  title : String
  description : Js
  category : Js
  priority : Js
  status : Int
deriving DecidableEq

/-- The `tasks` table plus the rowid SQLite will assign to the next
inserted row (`cursor.lastrowid` of that insert). -/
structure DB where
  tasks : List TaskRow
  nextId : Nat
deriving DecidableEq

/-- Well-formed database: every rowid is below the next free rowid, and
rowids are pairwise distinct (SQLite assigns them uniquely). -/
def DB.wf (db : DB) : Prop :=
  (∀ t ∈ db.tasks, t.id < db.nextId) ∧ (db.tasks.map TaskRow.id).Nodup

/-- The task shape returned by `get_tasks` (`dict(row)` of the SELECT at
lines 84-88: no `user_id` column). -/
structure TaskJson where
  id : Nat
  title : String
  description : Js
  category : Js
  priority : Js
  status : Int
deriving DecidableEq

def TaskRow.toJson (t : TaskRow) : TaskJson :=
  ⟨t.id, t.title, t.description, t.category, t.priority, t.status⟩

/-- HTTP responses produced by the handlers. -/
inductive Resp where
  /-- `UnauthenticatedError`: the JWT guard rejected the request (401). -/
  | unauth
  /-- `{"token": t}` with 200, issued by login. -/
  | token (t : String)
  /-- `jsonify({"error": msg}), code`. -/
  | err (msg : String) (code : Nat)
  /-- `jsonify({"message": msg}), code`. -/
  | message (msg : String) (code : Nat)
  /-- `jsonify({"message": msg, "id": id}), 201`. -/
  | created (msg : String) (id : Nat)
  /-- `jsonify(tasks), 200`. -/
  | taskList (rows : List TaskJson)
  /-- An exception escaping the handler (Flask turns it into a 500). -/
  | exn (msg : String)
deriving DecidableEq

/-- The HTTP status code carried by a response. -/
def Resp.statusCode : Resp → Nat
  | .unauth => 401
  | .token _ => 200
  | .err _ c => c
  | .message _ c => c
  | .created _ _ => 201
  | .taskList _ => 200
  | .exn _ => 500

/-- The authorization state of an incoming request. -/
inductive Token where
  | missing
  | malformed
  | expired
  | badSig
  | valid (uid : String)
deriving DecidableEq

/-- Modelled from the spec: the `@jwt_required()` guard (framework code,
not in `app.py`): a valid, non-expired, correctly-signed token yields the
subject identity (`get_jwt_identity`); a missing, malformed, expired or
incorrectly-signed token fails the request with `UnauthenticatedError`
before the handler body runs. -/
def requireJwt : Token → String ⊕ Resp
  | .valid uid => .inl uid
  | _ => .inr .unauth

/-- The route table registered by the `@app.route` decorators in
`app.py`: method and path pattern.  `delete_task` (line 199) carries no
decorator, so no DELETE route is registered. -/
def routes : List (String × String) :=
  [("GET", "/"),
   ("GET", "/tasks"),
   ("POST", "/tasks"),
   ("PUT", "/tasks/<int:task_id>")]

/-- `GET /tasks` (lines 67-98): list the caller's tasks. -/
def get_tasks (tok : Token) (db : DB) : Resp × DB :=
  match requireJwt tok with
  | .inr r => (r, db)
  | .inl user_id =>
    (.taskList ((db.tasks.filter (fun t => t.user_id == user_id)).map TaskRow.toJson), db)

def valid_categories : List Js :=
  [.str "Work", .str "Personal", .str "Study", .str "Shopping", .str "Other"]

def valid_priorities : List Js :=
  [.str "Low", .str "Medium", .str "High"]

/-- The fields a task body yields once line 113-117 extraction and the
line 120-130 validation have passed. -/
structure TaskFields where
  title : String
  description : Js
  category : Js
  priority : Js
  status : Int
deriving DecidableEq

/-- Lines 113-130 (resp. 161-176): extract the body fields with their
defaults, coerce `status`, then validate title, category and priority in
source order.  `status` is coerced (line 117) before the title check
(line 120), so a non-coercible status raises out of the handler.
`titleErr` is the handler's title complaint (the two differ). -/
def parseTaskBody (titleErr : String) (data : Js) : Resp ⊕ TaskFields :=
  match data with
  | .obj kvs =>
    let description := (dictGet kvs "description").getD (.str "")
    let category := (dictGet kvs "category").getD (.str "Personal")
    let priority := (dictGet kvs "priority").getD (.str "Medium")
    match pyInt ((dictGet kvs "status").getD (.int 0)) with
    | none => .inl (.exn "int() raised on the status field")
    | some status =>
      match dictGet kvs "title" with
      | some (.str s) =>
        if pyStrip s = "" then .inl (.err titleErr 400)
        else if ¬ (valid_categories.contains category) then .inl (.err "Invalid category" 400)
        else if ¬ (valid_priorities.contains priority) then .inl (.err "Invalid priority" 400)
        else .inr ⟨s, description, category, priority, status⟩
      | _ => .inl (.err titleErr 400)
  | _ => .inl (.exn "AttributeError: .get on a non-dict body")

def addTitleErr : String := "Title is required and must be a non-empty string"

def updTitleErr : String := "Title is required and must be a string"

/-- `POST /tasks` (lines 100-146): validate and insert a new task for the
caller; returns the new rowid. -/
def add_task (tok : Token) (body : Option Js) (db : DB) : Resp × DB :=
  match requireJwt tok with
  | .inr r => (r, db)
  | .inl user_id =>
    match body with
    | none => (.err "Invalid JSON" 400, db)
    | some data =>
      if data.truthy = false then (.err "Invalid JSON" 400, db)
      else
        match parseTaskBody addTitleErr data with
        | .inl r => (r, db)
        | .inr f =>
          let row : TaskRow := ⟨db.nextId, user_id, f.title, f.description, f.category, f.priority, f.status⟩
          (.created "Task added" db.nextId, ⟨db.tasks ++ [row], db.nextId + 1⟩)

/-- The WHERE clause of the UPDATE/DELETE statements: `id = ? AND user_id = ?`. -/
def TaskRow.sqlMatch (t : TaskRow) (task_id : Nat) (user_id : String) : Bool :=
  t.id == task_id && t.user_id == user_id

/-- Rows matched by `id = ? AND user_id = ?` (the statement's rowcount). -/
def rowcount (task_id : Nat) (user_id : String) (db : DB) : Nat :=
  (db.tasks.filter (fun t => t.sqlMatch task_id user_id)).length

/-- `PUT /tasks/<int:task_id>` (lines 149-196): validate, rewrite the full
row matching `id AND user_id`, 404 when no row matched. -/
def update_task (tok : Token) (task_id : Nat) (body : Option Js) (db : DB) : Resp × DB :=
  match requireJwt tok with
  | .inr r => (r, db)
  | .inl user_id =>
    match body with
    | none => (.err "Invalid JSON" 400, db)
    | some data =>
      if data.truthy = false then (.err "Invalid JSON" 400, db)
      else
        match parseTaskBody updTitleErr data with
        | .inl r => (r, db)
        | .inr f =>
          let newTasks := db.tasks.map (fun t =>
            if t.sqlMatch task_id user_id then
              ⟨t.id, t.user_id, f.title, f.description, f.category, f.priority, f.status⟩
            else t)
          if rowcount task_id user_id db = 0 then
            (.err "Task not found or unauthorized" 404, ⟨newTasks, db.nextId⟩)
          else
            (.message "Task updated" 200, ⟨newTasks, db.nextId⟩)

/-- `delete_task` (lines 199-219).  The function carries no `@app.route`
and no `@jwt_required()` decorator; its body deletes the row matching
`id AND user_id` for the ambient identity, 404 when no row matched. -/
def delete_task (user_id : String) (task_id : Nat) (db : DB) : Resp × DB :=
  let newTasks := db.tasks.filter (fun t => ! t.sqlMatch task_id user_id)
  if rowcount task_id user_id db = 0 then
    (.err "Task not found or unauthorized" 404, ⟨newTasks, db.nextId⟩)
  else
    (.message "Task deleted" 200, ⟨newTasks, db.nextId⟩)

/-- A user row, per the spec's data model. -/
structure User where
  id : Nat
  username : String
  password_hash : String
deriving DecidableEq

/-- Modelled from the spec: `app.py` contains no login handler (the
spec's `POST /login`).  Per section 4.1: look the User up by exact
username; if no match, or the password does not verify against the stored
hash under the one-way verification function `verify`, fail with
`AuthenticationError` ("invalid username or password") without
distinguishing the two cases; on success issue a signed token encoding
the user's identifier (`mkToken`). -/
def login (verify : String → String → Bool) (mkToken : Nat → String)
    (users : List User) (username password : String) : Resp :=
  match users.find? (fun u => u.username == username) with
  | none => .err "invalid username or password" 401
  | some u =>
    if verify password u.password_hash then .token (mkToken u.id)
    else .err "invalid username or password" 401

/-! ## Helper lemmas -/

theorem sqlMatch_iff (t : TaskRow) (tid : Nat) (uid : String) :
    t.sqlMatch tid uid = true ↔ t.id = tid ∧ t.user_id = uid := by
  simp [TaskRow.sqlMatch]

theorem filter_if_len_zero {α : Type} (p : α → Bool) (g : α → α) (l : List α)
    (h : (l.filter p).length = 0) :
    l.map (fun t => if p t then g t else t) = l := by
  induction l with
  | nil => rfl
  | cons a l ih =>
    by_cases hp : p a = true
    · rw [List.filter_cons_of_pos hp] at h
      simp at h
    · rw [List.filter_cons_of_neg hp] at h
      simp only [List.map_cons, if_neg hp, ih h]

theorem filter_not_len_zero {α : Type} (p : α → Bool) (l : List α)
    (h : (l.filter p).length = 0) :
    l.filter (fun t => ! p t) = l := by
  induction l with
  | nil => rfl
  | cons a l ih =>
    by_cases hp : p a = true
    · rw [List.filter_cons_of_pos hp] at h
      simp at h
    · rw [List.filter_cons_of_neg hp] at h
      simp only [List.filter_cons, hp, Bool.not_false, if_pos, ih h]

theorem filter_after_filter_not {α : Type} (p : α → Bool) (l : List α) :
    ((l.filter (fun t => ! p t)).filter p).length = 0 := by
  induction l with
  | nil => rfl
  | cons a l ih =>
    by_cases hp : p a = true <;> simp [List.filter_cons, hp, ih]

theorem truthy_of_dictGet_some (kvs : JsDict) (k : String) (v : Js)
    (h : dictGet kvs k = some v) : (Js.obj kvs).truthy = true := by
  cases kvs with
  | nil => simp [dictGet] at h
  | cons key val tl => rfl

theorem parse_inr_truthy (e : String) (data : Js) (f : TaskFields)
    (h : parseTaskBody e data = .inr f) : data.truthy = true := by
  cases data with
  | obj kvs =>
    cases kvs with
    | nil => simp [parseTaskBody, dictGet, pyInt] at h
    | cons k v tl => rfl
  | str s => simp [parseTaskBody] at h
  | int n => simp [parseTaskBody] at h
  | bool b => simp [parseTaskBody] at h
  | null => simp [parseTaskBody] at h
  | arr xs => simp [parseTaskBody] at h

theorem parseTaskBody_title_only (e X : String) (hX : pyStrip X ≠ "") :
    parseTaskBody e (.obj (.cons "title" (.str X) .nil)) =
      .inr ⟨X, .str "", .str "Personal", .str "Medium", 0⟩ := by
  simp [parseTaskBody, dictGet, pyInt, hX, valid_categories, valid_priorities]

/-! ## Handler unfolding lemmas -/

theorem get_tasks_valid (uid : String) (db : DB) :
    get_tasks (.valid uid) db =
      (.taskList ((db.tasks.filter (fun t => t.user_id == uid)).map TaskRow.toJson), db) := rfl

theorem add_task_of_parse_inl (uid : String) (data : Js) (r : Resp) (db : DB)
    (ht : data.truthy = true) (hp : parseTaskBody addTitleErr data = .inl r) :
    add_task (.valid uid) (some data) db = (r, db) := by
  simp [add_task, requireJwt, ht, hp]

theorem add_task_of_parse_inr (uid : String) (data : Js) (f : TaskFields) (db : DB)
    (ht : data.truthy = true) (hp : parseTaskBody addTitleErr data = .inr f) :
    add_task (.valid uid) (some data) db =
      (.created "Task added" db.nextId,
       ⟨db.tasks ++ [⟨db.nextId, uid, f.title, f.description, f.category, f.priority, f.status⟩],
        db.nextId + 1⟩) := by
  simp [add_task, requireJwt, ht, hp]

theorem update_task_of_parse_inl (uid : String) (tid : Nat) (data : Js) (r : Resp) (db : DB)
    (ht : data.truthy = true) (hp : parseTaskBody updTitleErr data = .inl r) :
    update_task (.valid uid) tid (some data) db = (r, db) := by
  simp [update_task, requireJwt, ht, hp]

theorem update_task_of_parse_inr_zero (uid : String) (tid : Nat) (data : Js) (f : TaskFields)
    (db : DB) (ht : data.truthy = true) (hp : parseTaskBody updTitleErr data = .inr f)
    (hr : rowcount tid uid db = 0) :
    update_task (.valid uid) tid (some data) db =
      (.err "Task not found or unauthorized" 404, db) := by
  simp only [update_task, requireJwt, ht, Bool.true_eq_false, if_false, hp, hr, if_pos]
  rw [filter_if_len_zero _ _ _ hr]

theorem update_task_of_parse_inr_pos (uid : String) (tid : Nat) (data : Js) (f : TaskFields)
    (db : DB) (ht : data.truthy = true) (hp : parseTaskBody updTitleErr data = .inr f)
    (hr : rowcount tid uid db ≠ 0) :
    update_task (.valid uid) tid (some data) db =
      (.message "Task updated" 200,
       ⟨db.tasks.map (fun t =>
          if t.sqlMatch tid uid then
            ⟨t.id, t.user_id, f.title, f.description, f.category, f.priority, f.status⟩
          else t),
        db.nextId⟩) := by
  simp [update_task, requireJwt, ht, hp, hr]

theorem delete_task_zero (uid : String) (tid : Nat) (db : DB)
    (hr : rowcount tid uid db = 0) :
    delete_task uid tid db = (.err "Task not found or unauthorized" 404, db) := by
  simp only [delete_task, hr, if_pos]
  rw [filter_not_len_zero _ _ hr]

theorem delete_task_pos (uid : String) (tid : Nat) (db : DB)
    (hr : rowcount tid uid db ≠ 0) :
    delete_task uid tid db =
      (.message "Task deleted" 200,
       ⟨db.tasks.filter (fun t => ! t.sqlMatch tid uid), db.nextId⟩) := by
  simp [delete_task, hr]

theorem delete_task_snd (uid : String) (tid : Nat) (db : DB) :
    (delete_task uid tid db).2 =
      ⟨db.tasks.filter (fun t => ! t.sqlMatch tid uid), db.nextId⟩ := by
  unfold delete_task
  split <;> rfl

theorem parse_inr_inv (e : String) (kvs : JsDict) (f : TaskFields)
    (h : parseTaskBody e (.obj kvs) = .inr f) :
    pyInt ((dictGet kvs "status").getD (.int 0)) = some f.status ∧
    dictGet kvs "title" = some (.str f.title) ∧
    f.description = (dictGet kvs "description").getD (.str "") ∧
    f.category = (dictGet kvs "category").getD (.str "Personal") ∧
    f.priority = (dictGet kvs "priority").getD (.str "Medium") ∧
    valid_categories.contains f.category = true ∧
    valid_priorities.contains f.priority = true := by
  simp only [parseTaskBody] at h
  split at h
  · exact absurd h (by simp)
  · rename_i status hst
    split at h
    · rename_i s hti
      split at h
      · exact absurd h (by simp)
      · split at h
        · exact absurd h (by simp)
        · split at h
          · exact absurd h (by simp)
          · rename_i hrm hcat hpri
            injection h with h2
            subst h2
            exact ⟨hst, hti, rfl, rfl, rfl, not_not.mp hcat, not_not.mp hpri⟩
    · exact absurd h (by simp)

theorem parse_out_of_set (e : String) (kvs : JsDict) (n : Int)
    (hstatus : pyInt ((dictGet kvs "status").getD (.int 0)) = some n)
    (hbad : valid_categories.contains ((dictGet kvs "category").getD (.str "Personal")) = false
          ∨ valid_priorities.contains ((dictGet kvs "priority").getD (.str "Medium")) = false) :
    ∃ m, parseTaskBody e (.obj kvs) = .inl (.err m 400) := by
  simp only [parseTaskBody, hstatus]
  split
  · rename_i s hti
    by_cases hrm : pyStrip s = ""
    · rw [if_pos hrm]
      exact ⟨e, rfl⟩
    · rw [if_neg hrm]
      by_cases hc : valid_categories.contains ((dictGet kvs "category").getD (.str "Personal")) = true
      · rw [if_neg (not_not_intro hc)]
        rcases hbad with hcb | hpb
        · rw [hc] at hcb
          simp at hcb
        · rw [if_pos (by rw [hpb]; simp)]
          exact ⟨"Invalid priority", rfl⟩
      · rw [if_pos hc]
        exact ⟨"Invalid category", rfl⟩
  · exact ⟨e, rfl⟩

theorem rowcount_zero_of_foreign (db : DB) (t : TaskRow) (B : String)
    (hnd : (db.tasks.map TaskRow.id).Nodup) (ht : t ∈ db.tasks) (hB : t.user_id ≠ B) :
    rowcount t.id B db = 0 := by
  rw [rowcount, List.length_eq_zero]
  apply List.filter_eq_nil_iff.mpr
  intro u hu hm
  obtain ⟨hid, huid⟩ := (sqlMatch_iff u t.id B).mp hm
  have heq : u = t := List.inj_on_of_nodup_map hnd hu ht hid
  exact hB (heq ▸ huid)

theorem list_excludes_foreign (db : DB) (t : TaskRow) (B : String)
    (hnd : (db.tasks.map TaskRow.id).Nodup) (ht : t ∈ db.tasks) (hB : t.user_id ≠ B) :
    ((db.tasks.filter (fun u => u.user_id == B)).map TaskRow.toJson).all
      (fun j => j.id != t.id) = true := by
  rw [List.all_eq_true]
  intro j hj
  simp only [List.mem_map, List.mem_filter] at hj
  obtain ⟨u, ⟨hu, huB⟩, rfl⟩ := hj
  have huB2 : u.user_id = B := by simpa using huB
  simp only [TaskRow.toJson, bne_iff_ne, ne_eq]
  intro hid
  exact hB (List.inj_on_of_nodup_map hnd hu ht hid ▸ huB2)

/-! ## Claim theorems -/

/-- C9: for every create or update request whose body is missing or not
parseable as JSON (`request.get_json()` yields no data), the handler
returns 400 with the error message "Invalid JSON" before any field
extraction, validation or store access: the database is returned
unchanged for every database. -/
theorem missing_body_yields_invalid_json (uid : String) (tid : Nat) (db : DB) :
    add_task (.valid uid) none db = (.err "Invalid JSON" 400, db) ∧
    update_task (.valid uid) tid none db = (.err "Invalid JSON" 400, db) :=
  ⟨rfl, rfl⟩

/-- C2: the claim fails for the delete operation.  The route table
registers no DELETE route at all (`delete_task` carries neither
`@app.route` nor `@jwt_required()`), and the `delete_task` function body
runs the store delete for the ambient identity without any token check:
evaluated here on a concrete store, it deletes the row even though no
token was ever presented to it.  For the three registered task routes the
guard does reject bad tokens before store logic. -/
theorem delete_operation_unguarded :
    routes.all (fun r => r.1 != "DELETE") = true ∧
    delete_task "alice" 7 ⟨[⟨7, "alice", "Buy milk", .str "", .str "Personal", .str "Medium", 0⟩], 8⟩
      = (.message "Task deleted" 200, ⟨[], 8⟩) := by
  decide

/-- C3: the delete operation is not exposed as an HTTP endpoint: the
route table contains no `DELETE /tasks/<int:task_id>` entry, and the only
method registered on that path pattern is PUT, so an HTTP DELETE request
never reaches `delete_task`. -/
theorem delete_route_not_registered :
    routes.contains ("DELETE", "/tasks/<int:task_id>") = false ∧
    routes.filter (fun r => r.2 == "/tasks/<int:task_id>") = [("PUT", "/tasks/<int:task_id>")] := by
  decide

/-- C7 (counterexample): a create request with a well-formed title but a
status that is not coercible to an integer does not fail with a
ValidationError 400: `int()` raises at line 117 outside the try-block, so
the request dies with an uncaught exception (a 500), before the title is
even validated. -/
theorem malformed_status_counterexample :
    (add_task (.valid "alice")
        (some (.obj (.cons "title" (.str "Call mom") (.cons "status" (.str "soon") .nil))))
        ⟨[], 5⟩).1
      = .exn "int() raised on the status field" ∧
    ((add_task (.valid "alice")
        (some (.obj (.cons "title" (.str "Call mom") (.cons "status" (.str "soon") .nil))))
        ⟨[], 5⟩).1).statusCode = 500 := by
  decide

/-- C6 (counterexample): a create request with category outside the fixed
enumeration does not always fail with a 400 ValidationError: when the
same request carries a non-coercible status value, `int()` raises first
(line 117 precedes the category check at line 127), so the request fails
with an uncaught exception (500), not a 400.  No write occurs either way. -/
theorem invalid_category_counterexample :
    (add_task (.valid "bob")
        (some (.obj (.cons "title" (.str "Laundry")
          (.cons "category" (.str "Invalid") (.cons "status" (.str "later") .nil)))))
        ⟨[], 1⟩).1
      = .exn "int() raised on the status field" ∧
    ((add_task (.valid "bob")
        (some (.obj (.cons "title" (.str "Laundry")
          (.cons "category" (.str "Invalid") (.cons "status" (.str "later") .nil)))))
        ⟨[], 1⟩).1).statusCode = 500 ∧
    (add_task (.valid "bob")
        (some (.obj (.cons "title" (.str "Laundry")
          (.cons "category" (.str "Invalid") (.cons "status" (.str "later") .nil)))))
        ⟨[], 1⟩).2 = ⟨[], 1⟩ := by
  decide

/-- C1: login fails with the `AuthenticationError` response (401,
"invalid username or password") when no user matches the username, and
the response is byte-identical to the one produced for a real username
with a non-verifying password: the two failure cases cannot be
distinguished by the caller. -/
theorem login_failure_nondistinguishing (verify : String → String → Bool)
    (mkToken : Nat → String) (users : List User) (u1 p1 u2 p2 : String)
    (h1 : users.find? (fun u => u.username == u1) = none)
    (h2 : ∀ u : User, users.find? (fun v => v.username == u2) = some u →
      verify p2 u.password_hash = false) :
    login verify mkToken users u1 p1 = .err "invalid username or password" 401 ∧
    (login verify mkToken users u1 p1).statusCode = 401 ∧
    login verify mkToken users u1 p1 = login verify mkToken users u2 p2 := by
  have e1 : login verify mkToken users u1 p1 = .err "invalid username or password" 401 := by
    simp [login, h1]
  refine ⟨e1, by rw [e1]; rfl, ?_⟩
  rw [e1]
  cases hf : users.find? (fun v => v.username == u2) with
  | none => simp [login, hf]
  | some u => simp [login, hf, h2 u hf]

/-- C1 witness: a concrete single-user store, exercised at a
nonexistent username and at the real username with a wrong password. -/
theorem login_failure_nondistinguishing_witness :
    login (fun p h => p == "secret" && h == "H1") (fun _ => "tok")
        [⟨1, "alice", "H1"⟩] "bob" "x"
      = .err "invalid username or password" 401 ∧
    login (fun p h => p == "secret" && h == "H1") (fun _ => "tok")
        [⟨1, "alice", "H1"⟩] "bob" "x"
      = login (fun p h => p == "secret" && h == "H1") (fun _ => "tok")
        [⟨1, "alice", "H1"⟩] "alice" "wrong" := by
  have h := login_failure_nondistinguishing (fun p h => p == "secret" && h == "H1")
      (fun _ => "tok") [⟨1, "alice", "H1"⟩] "bob" "x" "alice" "wrong"
      (by decide)
      (fun u hu => by rw [← Option.some.inj hu]; decide)
  exact ⟨h.1, h.2.2⟩

/-- C6 (amended): for every create or update request (parsed dict body)
whose status field is absent or coercible to an integer, a category or a
priority outside the fixed enumerations makes the request fail with a 400
validation response and perform no write: the store is returned
unchanged.  (With a non-coercible status the request instead dies with
the uncaught `int()` exception, a 500, still writing nothing — see the
counterexample.) -/
theorem out_of_set_rejected (uid : String) (tid : Nat) (kvs : JsDict) (db : DB) (n : Int)
    (hstatus : pyInt ((dictGet kvs "status").getD (.int 0)) = some n)
    (hbad : valid_categories.contains ((dictGet kvs "category").getD (.str "Personal")) = false
          ∨ valid_priorities.contains ((dictGet kvs "priority").getD (.str "Medium")) = false) :
    (add_task (.valid uid) (some (.obj kvs)) db).1.statusCode = 400 ∧
    (add_task (.valid uid) (some (.obj kvs)) db).2 = db ∧
    (update_task (.valid uid) tid (some (.obj kvs)) db).1.statusCode = 400 ∧
    (update_task (.valid uid) tid (some (.obj kvs)) db).2 = db := by
  have htr : (Js.obj kvs).truthy = true := by
    rcases hbad with hc | hp
    · cases hcg : dictGet kvs "category" with
      | none =>
        rw [hcg] at hc
        exact absurd hc (by decide)
      | some v => exact truthy_of_dictGet_some kvs "category" v hcg
    · cases hpg : dictGet kvs "priority" with
      | none =>
        rw [hpg] at hp
        exact absurd hp (by decide)
      | some v => exact truthy_of_dictGet_some kvs "priority" v hpg
  obtain ⟨m1, hm1⟩ := parse_out_of_set addTitleErr kvs n hstatus hbad
  obtain ⟨m2, hm2⟩ := parse_out_of_set updTitleErr kvs n hstatus hbad
  rw [add_task_of_parse_inl uid _ _ db htr hm1, update_task_of_parse_inl uid tid _ _ db htr hm2]
  exact ⟨rfl, rfl, rfl, rfl⟩

/-- C6 witness: a create and an update carrying the out-of-enumeration
category "Chores" are both rejected with 400 and leave the store as it
was. -/
theorem out_of_set_rejected_witness :
    (add_task (.valid "erin") (some (.obj (.cons "title" (.str "Plan")
        (.cons "category" (.str "Chores") .nil)))) ⟨[], 1⟩).1.statusCode = 400 ∧
    (add_task (.valid "erin") (some (.obj (.cons "title" (.str "Plan")
        (.cons "category" (.str "Chores") .nil)))) ⟨[], 1⟩).2 = ⟨[], 1⟩ ∧
    (update_task (.valid "erin") 2 (some (.obj (.cons "title" (.str "Plan")
        (.cons "category" (.str "Chores") .nil)))) ⟨[], 1⟩).1.statusCode = 400 ∧
    (update_task (.valid "erin") 2 (some (.obj (.cons "title" (.str "Plan")
        (.cons "category" (.str "Chores") .nil)))) ⟨[], 1⟩).2 = ⟨[], 1⟩ :=
  out_of_set_rejected "erin" 2
    (.cons "title" (.str "Plan") (.cons "category" (.str "Chores") .nil))
    ⟨[], 1⟩ 0 (by decide) (Or.inl (by decide))

/-- C7 (amended): in create and update the status field is coerced to an
integer, a missing status defaulting to 0; a status that is not coercible
makes `int()` raise at line 117/165, outside the try-block, so the
request fails with an uncaught exception (500) with no write — not with a
ValidationError 400. -/
theorem status_coercion_semantics (e uid : String) (tid : Nat) (kvs kvs2 : JsDict)
    (f : TaskFields) (v : Js) (db : DB)
    (h0 : dictGet kvs "status" = none)
    (h1 : parseTaskBody e (.obj kvs) = .inr f)
    (h2 : dictGet kvs2 "status" = some v)
    (h3 : pyInt v = none) :
    f.status = 0 ∧
    add_task (.valid uid) (some (.obj kvs2)) db = (.exn "int() raised on the status field", db) ∧
    update_task (.valid uid) tid (some (.obj kvs2)) db
      = (.exn "int() raised on the status field", db) := by
  have htr : (Js.obj kvs2).truthy = true := truthy_of_dictGet_some kvs2 "status" v h2
  refine ⟨?_, ?_, ?_⟩
  · have hs := (parse_inr_inv e kvs f h1).1
    rw [h0] at hs
    simp [pyInt] at hs
    omega
  · have hp : parseTaskBody addTitleErr (.obj kvs2)
        = .inl (.exn "int() raised on the status field") := by
      simp only [parseTaskBody, h2, Option.getD_some, h3]
    exact add_task_of_parse_inl uid _ _ db htr hp
  · have hp : parseTaskBody updTitleErr (.obj kvs2)
        = .inl (.exn "int() raised on the status field") := by
      simp only [parseTaskBody, h2, Option.getD_some, h3]
    exact update_task_of_parse_inl uid tid _ _ db htr hp

/-- C7 witness: a body without a status parses to the default status 0,
and a create whose status is the non-coercible string "x" dies with the
uncaught coercion exception, leaving the store unchanged. -/
theorem status_coercion_semantics_witness :
    (⟨"A", .str "", .str "Personal", .str "Medium", 0⟩ : TaskFields).status = 0 ∧
    add_task (.valid "frank") (some (.obj (.cons "status" (.str "x") .nil))) ⟨[], 1⟩
      = (.exn "int() raised on the status field", ⟨[], 1⟩) := by
  have h := status_coercion_semantics "te" "frank" 4 (.cons "title" (.str "A") .nil)
      (.cons "status" (.str "x") .nil) ⟨"A", .str "", .str "Personal", .str "Medium", 0⟩
      (.str "x") ⟨[], 1⟩ (by decide) (by decide) (by decide) (by decide)
  exact ⟨h.1, h.2.1⟩

/-- C4: ownership isolation: for users A ≠ B and any task of A in a
well-formed store, B's list never includes the task, and B's update and
delete on the task's id return exactly the generic 404 NotFoundError
response with the store unchanged, revealing nothing about the task. -/
theorem ownership_isolation (A B : String) (db : DB) (t : TaskRow) (data : Js) (f : TaskFields)
    (hAB : A ≠ B) (hwf : db.wf) (ht : t ∈ db.tasks) (hown : t.user_id = A)
    (hparse : parseTaskBody updTitleErr data = .inr f) :
    (get_tasks (.valid B) db).1
      = .taskList ((db.tasks.filter (fun u => u.user_id == B)).map TaskRow.toJson) ∧
    ((db.tasks.filter (fun u => u.user_id == B)).map TaskRow.toJson).all
      (fun j => j.id != t.id) = true ∧
    update_task (.valid B) t.id (some data) db = (.err "Task not found or unauthorized" 404, db) ∧
    delete_task B t.id db = (.err "Task not found or unauthorized" 404, db) := by
  have hBne : t.user_id ≠ B := by
    rw [hown]
    exact hAB
  have hzero : rowcount t.id B db = 0 := rowcount_zero_of_foreign db t B hwf.2 ht hBne
  have htr := parse_inr_truthy updTitleErr data f hparse
  exact ⟨by rw [get_tasks_valid],
         list_excludes_foreign db t B hwf.2 ht hBne,
         update_task_of_parse_inr_zero B t.id data f db htr hparse hzero,
         delete_task_zero B t.id db hzero⟩

/-- C4 witness: bob updating or deleting alice's task 1 gets the generic
404 and the store is untouched. -/
theorem ownership_isolation_witness :
    update_task (.valid "bob") 1 (some (.obj (.cons "title" (.str "Steal") .nil)))
        ⟨[⟨1, "alice", "Secret", .str "", .str "Personal", .str "Medium", 0⟩], 2⟩
      = (.err "Task not found or unauthorized" 404,
         ⟨[⟨1, "alice", "Secret", .str "", .str "Personal", .str "Medium", 0⟩], 2⟩) ∧
    delete_task "bob" 1 ⟨[⟨1, "alice", "Secret", .str "", .str "Personal", .str "Medium", 0⟩], 2⟩
      = (.err "Task not found or unauthorized" 404,
         ⟨[⟨1, "alice", "Secret", .str "", .str "Personal", .str "Medium", 0⟩], 2⟩) := by
  have h := ownership_isolation "alice" "bob"
      ⟨[⟨1, "alice", "Secret", .str "", .str "Personal", .str "Medium", 0⟩], 2⟩
      ⟨1, "alice", "Secret", .str "", .str "Personal", .str "Medium", 0⟩
      (.obj (.cons "title" (.str "Steal") .nil))
      ⟨"Steal", .str "", .str "Personal", .str "Medium", 0⟩
      (by decide) ⟨by simp, by simp⟩ (by simp) rfl (by decide)
  exact ⟨h.2.2.1, h.2.2.2⟩

/-- C5: round-trip: in a well-formed store, create with only a title "X"
succeeds with the next rowid, and a subsequent list for that owner is the
previous list plus exactly one new entry carrying title "X", description
"", category "Personal", priority "Medium", status 0 and the returned id;
no previous entry of the owner carries that id. -/
theorem create_then_list_roundtrip (uid X : String) (db : DB)
    (hwf : db.wf) (hX : pyStrip X ≠ "") :
    add_task (.valid uid) (some (.obj (.cons "title" (.str X) .nil))) db
      = (.created "Task added" db.nextId,
         ⟨db.tasks ++ [⟨db.nextId, uid, X, .str "", .str "Personal", .str "Medium", 0⟩],
          db.nextId + 1⟩) ∧
    (get_tasks (.valid uid)
        (add_task (.valid uid) (some (.obj (.cons "title" (.str X) .nil))) db).2).1
      = .taskList (((db.tasks.filter (fun t => t.user_id == uid)).map TaskRow.toJson)
          ++ [⟨db.nextId, X, .str "", .str "Personal", .str "Medium", 0⟩]) ∧
    ((db.tasks.filter (fun t => t.user_id == uid)).map TaskRow.toJson).all
        (fun j => j.id != db.nextId) = true := by
  have hp := parseTaskBody_title_only addTitleErr X hX
  have ha := add_task_of_parse_inr uid (.obj (.cons "title" (.str X) .nil)) _ db rfl hp
  refine ⟨ha, ?_, ?_⟩
  · rw [ha, get_tasks_valid]
    simp [List.filter_append, TaskRow.toJson]
  · rw [List.all_eq_true]
    intro j hj
    simp only [List.mem_map, List.mem_filter] at hj
    obtain ⟨u, ⟨hu, _⟩, rfl⟩ := hj
    have hlt := hwf.1 u hu
    simp only [TaskRow.toJson, bne_iff_ne, ne_eq]
    omega

/-- C5 witness: creating "X" in an empty store and listing yields exactly
the one new default-filled entry with the returned id 1. -/
theorem create_then_list_roundtrip_witness :
    add_task (.valid "carol") (some (.obj (.cons "title" (.str "X") .nil))) ⟨[], 1⟩
      = (.created "Task added" 1,
         ⟨[⟨1, "carol", "X", .str "", .str "Personal", .str "Medium", 0⟩], 2⟩) ∧
    (get_tasks (.valid "carol")
        (add_task (.valid "carol") (some (.obj (.cons "title" (.str "X") .nil))) ⟨[], 1⟩).2).1
      = .taskList [⟨1, "X", .str "", .str "Personal", .str "Medium", 0⟩] := by
  have h := create_then_list_roundtrip "carol" "X" ⟨[], 1⟩ ⟨by simp, by simp⟩ (by decide)
  exact ⟨h.1.trans (by decide), (h.2.1).trans (by decide)⟩

/-- C8: update and delete return the generic 404 NotFoundError with the
store unchanged exactly when zero rows match both the task id and the
owner, and succeed with 200 otherwise; after a successful delete,
repeating the delete on the same id always returns the 404 again. -/
theorem notfound_iff_zero_rows (uid : String) (tid tid2 : Nat) (data : Js) (f : TaskFields)
    (db db2 : DB)
    (hparse : parseTaskBody updTitleErr data = .inr f)
    (h0 : rowcount tid uid db = 0)
    (h1 : rowcount tid2 uid db2 ≠ 0) :
    update_task (.valid uid) tid (some data) db
      = (.err "Task not found or unauthorized" 404, db) ∧
    delete_task uid tid db = (.err "Task not found or unauthorized" 404, db) ∧
    (update_task (.valid uid) tid2 (some data) db2).1 = .message "Task updated" 200 ∧
    (delete_task uid tid2 db2).1 = .message "Task deleted" 200 ∧
    (delete_task uid tid2 (delete_task uid tid2 db2).2).1
      = .err "Task not found or unauthorized" 404 := by
  have ht := parse_inr_truthy updTitleErr data f hparse
  have h2 : rowcount tid2 uid (delete_task uid tid2 db2).2 = 0 := by
    rw [delete_task_snd, rowcount]
    exact filter_after_filter_not _ _
  refine ⟨update_task_of_parse_inr_zero uid tid data f db ht hparse h0,
          delete_task_zero uid tid db h0,
          by rw [update_task_of_parse_inr_pos uid tid2 data f db2 ht hparse h1],
          by rw [delete_task_pos uid tid2 db2 h1],
          by rw [delete_task_zero uid tid2 _ h2]⟩

/-- C8 witness: on a one-task store owned by "u", updating a missing id 9
gives the 404 untouched-store outcome, deleting the present id 1
succeeds, and deleting id 1 again returns the 404. -/
theorem notfound_iff_zero_rows_witness :
    update_task (.valid "u") 9 (some (.obj (.cons "title" (.str "New") .nil)))
        ⟨[⟨1, "u", "Old", .str "d", .str "Work", .str "High", 1⟩], 2⟩
      = (.err "Task not found or unauthorized" 404,
         ⟨[⟨1, "u", "Old", .str "d", .str "Work", .str "High", 1⟩], 2⟩) ∧
    (delete_task "u" 1 ⟨[⟨1, "u", "Old", .str "d", .str "Work", .str "High", 1⟩], 2⟩).1
      = .message "Task deleted" 200 ∧
    (delete_task "u" 1
        (delete_task "u" 1 ⟨[⟨1, "u", "Old", .str "d", .str "Work", .str "High", 1⟩], 2⟩).2).1
      = .err "Task not found or unauthorized" 404 := by
  have h := notfound_iff_zero_rows "u" 9 1 (.obj (.cons "title" (.str "New") .nil))
      ⟨"New", .str "", .str "Personal", .str "Medium", 0⟩
      ⟨[⟨1, "u", "Old", .str "d", .str "Work", .str "High", 1⟩], 2⟩
      ⟨[⟨1, "u", "Old", .str "d", .str "Work", .str "High", 1⟩], 2⟩
      (by decide) (by decide) (by decide)
  exact ⟨h.1, h.2.2.2.1, h.2.2.2.2⟩

/-- C10: for every update request with a successfully validated body, the
full row rewrite stores exactly the fields extracted from the request —
so a matching row's previous values are never preserved — and every
optional field omitted from the body is written as its fixed default:
description "", category "Personal", priority "Medium", status 0. -/
theorem update_resets_omitted_fields (uid : String) (tid : Nat) (kvs : JsDict)
    (f : TaskFields) (db : DB)
    (hparse : parseTaskBody updTitleErr (.obj kvs) = .inr f)
    (hr : rowcount tid uid db ≠ 0) :
    update_task (.valid uid) tid (some (.obj kvs)) db
      = (.message "Task updated" 200,
         ⟨db.tasks.map (fun t =>
            if t.sqlMatch tid uid then
              ⟨t.id, t.user_id, f.title, f.description, f.category, f.priority, f.status⟩
            else t),
          db.nextId⟩) ∧
    (dictGet kvs "description" = none → f.description = .str "") ∧
    (dictGet kvs "category" = none → f.category = .str "Personal") ∧
    (dictGet kvs "priority" = none → f.priority = .str "Medium") ∧
    (dictGet kvs "status" = none → f.status = 0) := by
  have htr := parse_inr_truthy updTitleErr (.obj kvs) f hparse
  obtain ⟨hst, -, hdesc, hcat, hpri, -, -⟩ := parse_inr_inv updTitleErr kvs f hparse
  refine ⟨update_task_of_parse_inr_pos uid tid (.obj kvs) f db htr hparse hr, ?_, ?_, ?_, ?_⟩
  · intro hnone
    rw [hnone] at hdesc
    simpa using hdesc
  · intro hnone
    rw [hnone] at hcat
    simpa using hcat
  · intro hnone
    rw [hnone] at hpri
    simpa using hpri
  · intro hnone
    rw [hnone] at hst
    simp [pyInt] at hst
    omega

/-- C10 witness: a body supplying title and description while omitting
category, priority and status rewrites the matching row — which held
category "Work", priority "High" and status 1 — with the supplied
description and the defaults for every omitted field. -/
theorem update_resets_omitted_fields_witness :
    update_task (.valid "dave") 3
        (some (.obj (.cons "title" (.str "Tidy") (.cons "description" (.str "keep") .nil))))
        ⟨[⟨3, "dave", "Old title", .str "Old desc", .str "Work", .str "High", 1⟩], 4⟩
      = (.message "Task updated" 200,
         ⟨[⟨3, "dave", "Tidy", .str "keep", .str "Personal", .str "Medium", 0⟩], 4⟩) ∧
    (⟨"Tidy", .str "keep", .str "Personal", .str "Medium", 0⟩ : TaskFields).category
      = .str "Personal" := by
  have h := update_resets_omitted_fields "dave" 3
      (.cons "title" (.str "Tidy") (.cons "description" (.str "keep") .nil))
      ⟨"Tidy", .str "keep", .str "Personal", .str "Medium", 0⟩
      ⟨[⟨3, "dave", "Old title", .str "Old desc", .str "Work", .str "High", 1⟩], 4⟩
      (by decide) (by decide)
  exact ⟨h.1.trans (by decide), h.2.2.1 (by decide)⟩

end TodoBackend
